import Mathlib

/-!
Verification of the Centralized Application Context-Aware Firewall backend.

The development shallowly embeds the Python sources under `backend/`:
  * `server.py`    — the Ingestion & Broadcast Hub (FastAPI app): the shared
    subscriber set `connected_clients`, `broadcast_event`, the `/events`
    ingestion endpoint `receive_event`, the `/score` endpoint, and the
    WebSocket disconnect cleanup path.
  * `network_monitor.py` — the Collector agent: `list_active_tcp_connections`,
    `send_event`, the event payload construction, and the polling loop.

Python dicts become association lists, the Python `set` of subscribers becomes
a duplicate-free list in insertion order, machine floats that only flow through
opaque library artifacts become rationals, and raised exceptions become
`Except` values.
-/

namespace CAFirewall

/-- A JSON value as far as the backend inspects one: the payloads exchanged by
the Collector and the Hub carry strings, numbers, booleans and nulls.  JSON
numbers are modelled as rationals. -/
inductive JValue where
  | str (s : String)
  | num (q : ℚ)
  | bool (b : Bool)
  | null
deriving DecidableEq, Repr

/-- A JSON object (a Python `dict`), as an association list keyed by field
name, in insertion order.  This is the payload type of `receive_event` and of
the `/score` request body. -/
abbrev Payload := List (String × JValue)

/-!  ## Subscriber registry and broadcast (`server.py`, lines 28-55, 86-92)  -/

/-- A connected WebSocket client as the broadcast loop distinguishes them:
an identity, plus whether `await ws.send_json(...)` raises for it (a closed
channel or write timeout).  `fails` abstracts the transport condition that
makes the bare `except:` branch in `broadcast_event` fire. -/
structure Sub where
  id : Nat
  fails : Bool
deriving DecidableEq, Repr

/-- The `for ws in connected_clients:` loop body of `broadcast_event`: attempt
a send to every subscriber in order, collecting into `remove_list` those whose
send raised.  Returns (subscribers attempted, `remove_list`), both in loop
order. -/
def broadcastLoop : List Sub → List Sub × List Sub
  | [] => ([], [])
  | ws :: rest =>
      let (att, rem) := broadcastLoop rest
      (ws :: att, if ws.fails then ws :: rem else rem)

/-- Python `set.discard`: remove the element if present, never raising. -/
def discard (s : List Sub) (ws : Sub) : List Sub :=
  s.filter (fun x => x ≠ ws)

/-- `broadcast_event` (server.py lines 30-41), sequentially: attempt a send to
every currently registered subscriber, then `discard` every subscriber whose
send raised.  Returns the registry after the dead-client cleanup. -/
def broadcast_event (registry : List Sub) : List Sub :=
  (broadcastLoop registry).2.foldl discard registry

/-- The acknowledgment body of the `/events` endpoint: `{"status": "ok"}`. -/
inductive Ack where
  | ok
deriving DecidableEq, Repr

/-- `receive_event` (server.py lines 86-92): broadcast the payload to all
connected WebSocket clients, then unconditionally return the success
acknowledgment.  The payload itself is not inspected. -/
def receive_event (registry : List Sub) (_payload : Payload) : List Sub × Ack :=
  (broadcast_event registry, Ack.ok)

/-- Python `set.remove`: remove the element, raising `KeyError` when it is
absent.  This is the WebSocket disconnect cleanup path
(`connected_clients.remove(websocket)`, server.py line 54). -/
def set_remove (s : List Sub) (ws : Sub) : Except String (List Sub) :=
  if ws ∈ s then .ok (s.filter (fun x => x ≠ ws)) else .error "KeyError"

/-! ### Registry lemmas -/

theorem broadcastLoop_fst (r : List Sub) : (broadcastLoop r).1 = r := by
  induction r with
  | nil => rfl
  | cons ws rest ih => simp [broadcastLoop, ih]

theorem broadcastLoop_snd (r : List Sub) :
    (broadcastLoop r).2 = r.filter (fun ws => ws.fails) := by
  induction r with
  | nil => rfl
  | cons ws rest ih =>
    by_cases h : ws.fails <;> simp [broadcastLoop, ih, h]

theorem mem_discard_of_mem_ne {x y : Sub} {s : List Sub} (hx : x ∈ s)
    (hne : x ≠ y) : x ∈ discard s y := by
  simp [discard, List.mem_filter, hx, hne]

theorem not_mem_discard_self (s : List Sub) (x : Sub) : x ∉ discard s x := by
  simp [discard, List.mem_filter]

theorem not_mem_foldl_discard_of_not_mem {x : Sub} {s : List Sub}
    (rem : List Sub) (hx : x ∉ s) : x ∉ rem.foldl discard s := by
  induction rem generalizing s with
  | nil => exact hx
  | cons a rest ih =>
    exact ih (fun hmem => hx ((List.mem_filter.mp hmem).1))

theorem not_mem_foldl_discard_of_mem {x : Sub} (rem : List Sub) (s : List Sub)
    (hx : x ∈ rem) : x ∉ rem.foldl discard s := by
  induction rem generalizing s with
  | nil => cases hx
  | cons a rest ih =>
    rcases List.mem_cons.mp hx with h | h
    · subst h
      exact not_mem_foldl_discard_of_not_mem rest (not_mem_discard_self s x)
    · exact ih (discard s a) h

theorem mem_foldl_discard_of_all_ne {x : Sub} (rem : List Sub) (s : List Sub)
    (hx : x ∈ s) (hne : ∀ a ∈ rem, x ≠ a) : x ∈ rem.foldl discard s := by
  induction rem generalizing s with
  | nil => exact hx
  | cons a rest ih =>
    exact ih (discard s a)
      (mem_discard_of_mem_ne hx (hne a (List.mem_cons_self a rest)))
      (fun b hb => hne b (List.mem_cons_of_mem a hb))

/-- A failing subscriber is gone from the registry after `broadcast_event`. -/
theorem not_mem_broadcast_of_fails {ws : Sub} {r : List Sub} (hmem : ws ∈ r)
    (hf : ws.fails = true) : ws ∉ broadcast_event r := by
  unfold broadcast_event
  rw [broadcastLoop_snd]
  exact not_mem_foldl_discard_of_mem _ r (List.mem_filter.mpr ⟨hmem, by simp [hf]⟩)

/-- A subscriber whose sends succeed survives `broadcast_event`. -/
theorem mem_broadcast_of_not_fails {ws : Sub} {r : List Sub} (hmem : ws ∈ r)
    (hf : ws.fails = false) : ws ∈ broadcast_event r := by
  unfold broadcast_event
  rw [broadcastLoop_snd]
  refine mem_foldl_discard_of_all_ne _ r hmem (fun a ha hEq => ?_)
  have := (List.mem_filter.mp ha).2
  subst hEq
  simp [hf] at this

/-!  ## The `/events` HTTP boundary  -/

/-- A JSON request body as FastAPI classifies it for a handler declared
`payload: dict`: either an object (passed through to the handler) or some
non-object JSON, which fails request validation. -/
inductive Body where
  | obj (p : Payload)
  | nonObject
deriving DecidableEq, Repr

/-- An HTTP outcome of the `/events` endpoint: the handler's acknowledgment,
a client-error validation response, or an unhandled server error. -/
inductive HttpResult where
  | ok (a : Ack)
  | clientError (code : Nat)
  | serverError (msg : String)
deriving DecidableEq, Repr

/-- The `/events` endpoint as exposed over HTTP: FastAPI validates only that
the body is a JSON object (the handler signature is `payload: dict`, server.py
line 87) and rejects non-objects with a 422; every object, whatever fields it
has or lacks, is handed to `receive_event`. -/
def events_endpoint (registry : List Sub) (b : Body) : List Sub × HttpResult :=
  match b with
  | .obj p =>
      let (r2, a) := receive_event registry p
      (r2, .ok a)
  | .nonObject => (registry, .clientError 422)

/-!  ## Claim theorems for the Hub  -/

/-- C1.  Every `ingest` call on the Hub returns the success acknowledgment no
matter which subscribers' sends fail (all of them included); a send is
attempted for every registered subscriber, one failure never preventing the
attempts to the rest; and every subscriber whose send raised is removed from
the registry. -/
theorem hub_ingest_best_effort (r : List Sub) (p : Payload) :
    (receive_event r p).2 = Ack.ok ∧
    (broadcastLoop r).1 = r ∧
    ∀ ws ∈ r, ws.fails = true → ws ∉ (receive_event r p).1 := by
  refine ⟨rfl, broadcastLoop_fst r, fun ws hmem hf => ?_⟩
  exact not_mem_broadcast_of_fails hmem hf

/-- Witness for C1 at a registry where every send fails: the call still
acknowledges, and the first failed subscriber is gone from the registry. -/
theorem hub_ingest_best_effort_witness :
    (receive_event [⟨1, true⟩, ⟨2, true⟩] []).2 = Ack.ok ∧
    Sub.mk 1 true ∉ (receive_event [⟨1, true⟩, ⟨2, true⟩] []).1 :=
  ⟨(hub_ingest_best_effort [⟨1, true⟩, ⟨2, true⟩] []).1,
   (hub_ingest_best_effort [⟨1, true⟩, ⟨2, true⟩] []).2.2 ⟨1, true⟩ (by decide) rfl⟩

/-- C5, counterexample.  The empty JSON object is missing every required Event
field, yet the Hub broadcasts it and answers with the success acknowledgment,
not with a client-error response. -/
theorem ingest_missing_fields_counterexample :
    (events_endpoint [] (Body.obj [])).2 = HttpResult.ok Ack.ok ∧
    ∀ code, (events_endpoint [] (Body.obj [])).2 ≠ HttpResult.clientError code := by
  exact ⟨rfl, fun code h => by simp [events_endpoint, receive_event] at h⟩

/-- C5, amended.  The Hub accepts every JSON object payload — including ones
missing required Event fields — broadcasting it and returning success; only a
non-object body is rejected, with a 422 client error; no input makes the
endpoint raise a server error. -/
theorem ingest_accepts_any_object (r : List Sub) (b : Body) :
    (events_endpoint r b).2 =
      match b with
      | .obj _ => HttpResult.ok Ack.ok
      | .nonObject => HttpResult.clientError 422 := by
  cases b <;> rfl

/-- C10.  Subscriber removal is not idempotent across the two removal paths:
a failing subscriber is dropped from the registry by `broadcast_event`
(`discard`), so the later disconnect cleanup (`set.remove`) raises `KeyError`;
a subscriber still present is removed by the disconnect path without error. -/
theorem subscriber_removal_not_idempotent (r : List Sub) (ws : Sub)
    (hmem : ws ∈ r) :
    (ws.fails = true → set_remove (broadcast_event r) ws = .error "KeyError") ∧
    (ws.fails = false →
      set_remove (broadcast_event r) ws =
        .ok ((broadcast_event r).filter (fun x => x ≠ ws))) := by
  constructor
  · intro hf
    have := not_mem_broadcast_of_fails hmem hf
    simp [set_remove, this]
  · intro hf
    have := mem_broadcast_of_not_fails hmem hf
    simp [set_remove, this]

/-- Witness for C10: a subscriber whose send failed during broadcast triggers
`KeyError` on disconnect. -/
theorem subscriber_removal_not_idempotent_witness :
    set_remove (broadcast_event [⟨7, true⟩]) ⟨7, true⟩ = .error "KeyError" :=
  (subscriber_removal_not_idempotent [⟨7, true⟩] ⟨7, true⟩ (by decide)).1 rfl

/-!  ## Connection enumeration (`network_monitor.py`, lines 30-46)  -/

/-- A TCP connection state as psutil reports it. -/
inductive ConnStatus where
  | established
  | listen
  | other (s : String)
deriving DecidableEq, Repr

/-- An endpoint address `(ip, port)`; psutil leaves it unset for unbound or
unconnected sides. -/
structure Addr where
  ip : String
  port : Nat
deriving DecidableEq, Repr

/-- A row of `psutil.net_connections(kind='tcp')` as the enumerator reads it:
state, local and remote addresses (absent when unset), and the owning process
id when the OS exposed one. -/
structure RawConn where
  status : ConnStatus
  laddr : Option Addr
  raddr : Option Addr
  pid : Option Nat
deriving DecidableEq, Repr

/-- The f-string `f"{addr.ip}:{addr.port}" if addr else "N/A"` applied to a
psutil address. -/
def addrStr : Option Addr → String
  | some a => a.ip ++ ":" ++ toString a.port
  | none => "N/A"

/-- The `pid` column value, `pid if pid else "N/A"`: Python truthiness sends
both a missing pid and pid 0 to the string `"N/A"`; any other pid is kept as
a number. -/
inductive PidField where
  | pid (n : Nat)
  | na
deriving DecidableEq, Repr

def pidField : Option Nat → PidField
  | some n => if n = 0 then .na else .pid n
  | none => .na

/-- `pid_map.get(pid, default)` where `pid` may be Python `None`: `None` is
never a key of the pid → executable-path dict, so it always misses. -/
def pidLookup (m : List (Nat × String)) : Option Nat → Option String
  | some n => m.lookup n
  | none => none

/-- The retention test of the enumeration loop: keep `ESTABLISHED` or `LISTEN`
connections, but drop an `ESTABLISHED` connection whose formatted remote
address is `"N/A"` (no resolvable remote endpoint). -/
def retained (conn : RawConn) : Bool :=
  (conn.status == ConnStatus.established || conn.status == ConnStatus.listen) &&
  !(conn.status == ConnStatus.established && addrStr conn.raddr == "N/A")

/-- One dict appended to `connections` by `list_active_tcp_connections`. -/
structure ConnRow where
  pid : PidField
  status : ConnStatus
  local_addr : String
  remote_addr : String
  process_path : String
deriving DecidableEq, Repr

def mkRow (pid_map : List (Nat × String)) (conn : RawConn) : ConnRow :=
  { pid := pidField conn.pid
    status := conn.status
    local_addr := addrStr conn.laddr
    remote_addr := addrStr conn.raddr
    process_path := (pidLookup pid_map conn.pid).getD "Unknown/System Process" }

/-- `list_active_tcp_connections` (network_monitor.py lines 30-46): walk the
connection table, keep the retained connections in order, and build one row
per kept connection, resolving the owning process's executable path through
`pid_map` with the `"Unknown/System Process"` sentinel as fallback. -/
def list_active_tcp_connections (pid_map : List (Nat × String))
    (conns : List RawConn) : List ConnRow :=
  (conns.filter retained).map (mkRow pid_map)

/-- C2.  Every retained connection has state `ESTABLISHED` or `LISTEN`; no
output row is `ESTABLISHED` with the unresolved-remote marker; an
`ESTABLISHED` connection with no remote endpoint is dropped by the retention
test; and a retained connection whose pid misses the process map carries the
`"Unknown/System Process"` sentinel path. -/
theorem enumerator_retained_invariants (m : List (Nat × String))
    (conns : List RawConn) :
    (∀ row ∈ list_active_tcp_connections m conns,
       (row.status = ConnStatus.established ∨ row.status = ConnStatus.listen) ∧
       ¬(row.status = ConnStatus.established ∧ row.remote_addr = "N/A")) ∧
    (∀ conn : RawConn, conn.status = ConnStatus.established → conn.raddr = none →
       retained conn = false) ∧
    (∀ conn : RawConn, retained conn = true → pidLookup m conn.pid = none →
       (mkRow m conn).process_path = "Unknown/System Process") := by
  refine ⟨fun row hrow => ?_, fun conn hs hr => ?_, fun conn _ hpid => ?_⟩
  · rcases List.mem_map.mp hrow with ⟨conn, hconn, hEq⟩
    have hret := List.of_mem_filter hconn
    subst hEq
    simp only [retained, Bool.and_eq_true, Bool.or_eq_true, beq_iff_eq,
      Bool.not_eq_true', Bool.and_eq_false_iff, beq_eq_false_iff_ne] at hret
    obtain ⟨hstates, hdrop⟩ := hret
    refine ⟨by simpa [mkRow] using hstates, ?_⟩
    rintro ⟨hest, hna⟩
    simp only [mkRow] at hest hna
    rcases hdrop with h | h
    · exact h hest
    · exact h hna
  · simp [retained, hs, hr, addrStr]
  · simp [mkRow, hpid]

/-- Witness for C2 at a listening socket with no owning process. -/
theorem enumerator_retained_invariants_witness :
    (mkRow [] ⟨ConnStatus.listen, none, none, none⟩).process_path =
      "Unknown/System Process" :=
  (enumerator_retained_invariants [] []).2.2 ⟨ConnStatus.listen, none, none, none⟩
    (by decide) rfl

/-!  ## Event emission (`network_monitor.py`, lines 65-69 and 81-117)  -/

/-- The transport condition of one `requests.post` call to the Hub. -/
inductive Transport where
  | delivered
  | timeout
  | connectionRefused
  | dnsError
  | otherError (msg : String)
deriving DecidableEq, Repr

/-- `requests.post(SERVER_URL, json=payload, timeout=REQUEST_TIMEOUT)`:
returns normally on delivery and raises some exception on any transport
failure. -/
def requests_post : Transport → Except String Unit
  | .delivered => .ok ()
  | .timeout => .error "requests.exceptions.Timeout"
  | .connectionRefused => .error "requests.exceptions.ConnectionError"
  | .dnsError => .error "socket.gaierror"
  | .otherError msg => .error msg

/-- What one call to `send_event` did: how many post attempts it made,
which payloads it kept buffered for later delivery, and whether it raised
into its caller. -/
structure SendOutcome where
  attempts : Nat
  buffered : List Payload
  raised : Bool
deriving DecidableEq, Repr

/-- `send_event` (network_monitor.py lines 65-69): one `requests.post`
attempt inside `try: ... except Exception: pass` — the exception, if any, is
swallowed; there is no retry and no buffer. -/
def send_event (t : Transport) (_payload : Payload) : SendOutcome :=
  match requests_post t with
  | .ok _ => { attempts := 1, buffered := [], raised := false }
  | .error _ => { attempts := 1, buffered := [], raised := false }

/-- What one iteration of the `while True:` polling loop did. -/
inductive CycleOutcome where
  | normal
  | keyboardInterrupt
  | unexpected (msg : String)
deriving DecidableEq, Repr

/-- The polling loop (network_monitor.py lines 81-117) over a trace of cycle
outcomes: a normal cycle continues to the next iteration; `KeyboardInterrupt`
and any unexpected exception both hit a `break`.  Returns the number of
iterations executed. -/
def runLoop : List CycleOutcome → Nat
  | [] => 0
  | c :: rest =>
      match c with
      | .normal => 1 + runLoop rest
      | .keyboardInterrupt => 1
      | .unexpected _ => 1

/-- One loop iteration given the enumeration step's result and the transport
conditions of that cycle's sends: a raising enumeration is an unexpected
exception; the send step contributes an exception only if some `send_event`
call raises into the loop. -/
def collectorCycle (enumeration : Except String (List Transport)) : CycleOutcome :=
  match enumeration with
  | .error msg => .unexpected msg
  | .ok sends =>
      if sends.all (fun t => !(send_event t []).raised) then .normal
      else .unexpected "send raised"

theorem send_event_const (t : Transport) (p : Payload) :
    send_event t p = { attempts := 1, buffered := [], raised := false } := by
  cases t <;> rfl

/-- C3.  `send_event` never raises for any payload and any transport failure,
makes exactly one post attempt, and buffers nothing; consequently a cycle
whose sends all fail is still a normal cycle and the polling loop continues
to the next iteration. -/
theorem send_event_never_raises (t : Transport) (p : Payload)
    (sends : List Transport) (rest : List CycleOutcome) :
    (send_event t p).raised = false ∧
    (send_event t p).attempts = 1 ∧
    (send_event t p).buffered = [] ∧
    runLoop (collectorCycle (.ok sends) :: rest) = 1 + runLoop rest := by
  refine ⟨by simp [send_event_const], by simp [send_event_const],
    by simp [send_event_const], ?_⟩
  have hc : collectorCycle (.ok sends) = CycleOutcome.normal := by
    simp [collectorCycle, send_event_const]
  rw [hc]
  rfl

/-- C7.  An unexpected exception in some cycle terminates the polling loop at
that iteration: however many cycles follow in the trace, none of them runs. -/
theorem polling_loop_fail_fast (pre post : List CycleOutcome) (msg : String)
    (hpre : ∀ c ∈ pre, c = CycleOutcome.normal) :
    runLoop (pre ++ CycleOutcome.unexpected msg :: post) = pre.length + 1 := by
  induction pre with
  | nil => rfl
  | cons c rest ih =>
    have hc := hpre c (List.mem_cons_self c rest)
    subst hc
    have := ih (fun x hx => hpre x (List.mem_cons_of_mem _ hx))
    simp [runLoop, this]
    omega

/-- Witness for C7: two normal cycles, then an unexpected exception, with one
more cycle in the trace that never runs. -/
theorem polling_loop_fail_fast_witness :
    runLoop ([CycleOutcome.normal, CycleOutcome.normal] ++
      CycleOutcome.unexpected "boom" :: [CycleOutcome.normal]) = 2 + 1 :=
  polling_loop_fail_fast [CycleOutcome.normal, CycleOutcome.normal]
    [CycleOutcome.normal] "boom" (by decide)

/-!  ## Event payload construction (`network_monitor.py`, lines 90-107)  -/

/-- `os.path.basename` on a POSIX path: everything after the last slash. -/
def basename (p : String) : String :=
  (p.splitOn "/").getLastD ""

/-- The psutil status strings carried in the payload. -/
def statusStr : ConnStatus → String
  | .established => "ESTABLISHED"
  | .listen => "LISTEN"
  | .other s => s

/-- The JSON value of the payload's `pid` key: the integer pid when the row
kept one, the string `"N/A"` otherwise. -/
def pidJson : PidField → JValue
  | .pid n => .num n
  | .na => .str "N/A"

/-- The per-connection payload dict the Collector posts to `/events`
(network_monitor.py lines 95-106), built from the host name, the cycle's
timestamp and one enumeration row.  `process` is
`os.path.basename(process_path) if process_path else ""`, `label` starts as
`"Normal"` and `score` as `null`. -/
def connPayload (hostname ts : String) (row : ConnRow) : Payload :=
  [("host", .str hostname),
   ("timestamp", .str ts),
   ("process", .str (if row.process_path ≠ "" then basename row.process_path else "")),
   ("pid", pidJson row.pid),
   ("local", .str row.local_addr),
   ("remote", .str row.remote_addr),
   ("status", .str (statusStr row.status)),
   ("exe_path", .str row.process_path),
   ("label", .str "Normal"),
   ("score", JValue.null)]

/-- A psutil row for a listening socket whose owning pid the OS did not
expose. -/
def noPidConn : RawConn :=
  { status := ConnStatus.listen
    laddr := some ⟨"0.0.0.0", 80⟩
    raddr := none
    pid := none }

/-- C8, counterexample.  For a connection with no exposed process id the
constructed Event still carries a `pid` key, holding the substitute
placeholder string `"N/A"` — the field is not absent. -/
theorem event_pid_placeholder_counterexample :
    (connPayload "host" "ts" (mkRow [] noPidConn)).lookup "pid" =
      some (JValue.str "N/A") := by decide

/-- C8, amended.  Every Event payload carries the `pid` key: it holds the
OS-exposed pid as a number when one was exposed and it was nonzero, and the
placeholder string `"N/A"` when none was exposed (or the exposed pid was 0,
by Python truthiness). -/
theorem event_pid_always_present (hostname ts : String)
    (m : List (Nat × String)) (conn : RawConn) :
    ((connPayload hostname ts (mkRow m conn)).lookup "pid" =
       some (pidJson (pidField conn.pid))) ∧
    (conn.pid = none → pidJson (pidField conn.pid) = JValue.str "N/A") ∧
    (∀ n, conn.pid = some n → n ≠ 0 → pidJson (pidField conn.pid) = JValue.num n) := by
  refine ⟨by simp [connPayload, mkRow, List.lookup], fun h => ?_, fun n h hn => ?_⟩
  · simp [pidField, h, pidJson]
  · simp [pidField, h, hn, pidJson]

/-- Witness for C8 (amended) at a connection exposing pid 4242. -/
theorem event_pid_always_present_witness :
    pidJson (pidField (RawConn.pid ⟨ConnStatus.listen, none, none, some 4242⟩)) =
      JValue.num 4242 :=
  (event_pid_always_present "h" "t" [] ⟨ConnStatus.listen, none, none, some 4242⟩).2.2
    4242 rfl (by decide)

/-!  ## The `/score` endpoint (`server.py`, lines 58-80)  -/

/-- The model and scaler artifacts `joblib.load`ed at server start.  server.py
treats them as opaque callables: `scaler.transform` maps one 3-feature row to
a scaled row, `model.decision_function` gives the continuous score, and
`model.predict` marks a row anomalous (−1) or not. -/
structure ScorerArtifacts where
  scale : ℚ × ℚ × ℚ → ℚ × ℚ × ℚ
  decision : ℚ × ℚ × ℚ → ℚ
  predictAnomaly : ℚ × ℚ × ℚ → Bool

/-- `payload.get(key, default)` on the request's JSON object. -/
def payloadGet (p : Payload) (k : String) (d : JValue) : JValue :=
  match p.lookup k with
  | some v => v
  | none => d

/-- Reads a JSON value as the number numpy would accept; a present
non-numeric value has no numeric reading and would fail downstream. -/
def asNum : JValue → Option ℚ
  | .num q => some q
  | _ => none

/-- The `{score, label}` response body of `/score`. -/
structure ScoreResp where
  score : ℚ
  label : String
deriving DecidableEq, Repr

/-- The `/score` handler (server.py lines 71-80): read the three features
with `payload.get` defaults `0.0`, `0.0`, `0`, scale the row, then answer
with the decision-function score and the predicted label.  `none` models the
server error a present non-numeric field would cause inside numpy/sklearn;
there is no rejection path for missing fields. -/
def score (art : ScorerArtifacts) (p : Payload) : Option ScoreResp :=
  match asNum (payloadGet p "connection_duration" (.num 0)),
        asNum (payloadGet p "packet_size" (.num 0)),
        asNum (payloadGet p "port_number" (.num 0)) with
  | some d, some s, some pt =>
      let xs := art.scale (d, s, pt)
      some { score := art.decision xs
             label := if art.predictAnomaly xs then "Anomaly" else "Normal" }
  | _, _, _ => none

/-- A concrete artifact pair for evaluating the endpoint: an identity scaler
and a decision function summing the features. -/
def probeArtifacts : ScorerArtifacts :=
  { scale := fun x => x
    decision := fun x => x.1 + x.2.1 + x.2.2
    predictAnomaly := fun _ => false }

/-- C4, counterexample.  A score request missing all three feature inputs is
not rejected: the handler coerces them to the defaults `(0, 0, 0)`, scales,
and answers with a score and label. -/
theorem score_missing_fields_counterexample :
    score probeArtifacts [] = some { score := 0, label := "Normal" } := by
  simp [score, payloadGet, asNum, probeArtifacts]

/-- C4, amended.  A score request missing any subset of the three feature
inputs — one, two, or all three — is not rejected with an
`InvalidFeatureVector` error: each missing input individually reads as the
`payload.get` default of zero, each present numeric input is used as given,
and the request is scored on the resulting coerced vector.  The hypotheses
name the three values the handler reads; they only ask that whichever fields
are present be numeric. -/
theorem score_missing_fields_coerced (art : ScorerArtifacts) (p : Payload)
    (d s pt : ℚ)
    (hd : asNum (payloadGet p "connection_duration" (.num 0)) = some d)
    (hs : asNum (payloadGet p "packet_size" (.num 0)) = some s)
    (hpt : asNum (payloadGet p "port_number" (.num 0)) = some pt) :
    (p.lookup "connection_duration" = none → d = 0) ∧
    (p.lookup "packet_size" = none → s = 0) ∧
    (p.lookup "port_number" = none → pt = 0) ∧
    score art p =
      some { score := art.decision (art.scale (d, s, pt))
             label := if art.predictAnomaly (art.scale (d, s, pt))
                      then "Anomaly" else "Normal" } := by
  refine ⟨fun h => ?_, fun h => ?_, fun h => ?_, ?_⟩
  · simp [payloadGet, h, asNum] at hd
    exact hd.symm
  · simp [payloadGet, h, asNum] at hs
    exact hs.symm
  · simp [payloadGet, h, asNum] at hpt
    exact hpt.symm
  · simp only [score, hd, hs, hpt]

/-- Witness for C4 (amended) at a payload missing exactly one feature
(`connection_duration`): the missing input reads as 0, the present ones as
given, and the request is scored. -/
theorem score_missing_fields_coerced_witness :
    score probeArtifacts
        [("packet_size", JValue.num 100), ("port_number", JValue.num 443)] =
      some { score := probeArtifacts.decision (probeArtifacts.scale (0, 100, 443))
             label := if probeArtifacts.predictAnomaly
                          (probeArtifacts.scale (0, 100, 443))
                      then "Anomaly" else "Normal" } :=
  (score_missing_fields_coerced probeArtifacts
    [("packet_size", JValue.num 100), ("port_number", JValue.num 443)]
    0 100 443 rfl rfl rfl).2.2.2

/-!  ## Broadcast under concurrent registry mutation (`server.py`, lines 30-55)

`broadcast_event` iterates the shared `connected_clients` set directly, with
an `await ws.send_json(...)` inside the loop.  Under asyncio's cooperative
scheduling another task can run only at an await point, so registry mutations
(`connected_clients.add` in `websocket_endpoint`, removals on disconnect)
interleave exactly at the sends.  A CPython set iterator records the set's
size at creation and raises `RuntimeError: Set changed size during iteration`
from `next()` whenever the current size differs from the recorded one.  -/

/-- A registry mutation another asyncio task can perform while a broadcast
send is awaited: a subscriber attaching (`connected_clients.add`, server.py
line 47) or one detaching (removal from the set). -/
inductive RegOp where
  | attach (ws : Sub)
  | detach (ws : Sub)
deriving DecidableEq, Repr

/-- `set.add` (no-op when present) and set removal, on the insertion-order
list modelling the set. -/
def applyOp (r : List Sub) : RegOp → List Sub
  | .attach ws => if ws ∈ r then r else r ++ [ws]
  | .detach ws => r.filter (fun x => x ≠ ws)

def applyOps (r : List Sub) (ops : List RegOp) : List Sub :=
  ops.foldl applyOp r

/-- The `for ws in connected_clients:` iteration of `broadcast_event` under an
interleaving schedule: `used0` is the set size recorded when the iterator was
created, `pos` the iteration position, `rem` the `remove_list` so far, and
`sched` gives the registry mutations other tasks perform during each
successive awaited send.  Each `next()` first raises `RuntimeError` when the
set's size no longer matches `used0`; otherwise it yields the next element,
whose send is attempted (failures appended to `rem`) while the scheduled
mutations apply. -/
def broadcastIter (used0 pos : Nat) (r rem : List Sub)
    (sched : List (List RegOp)) : Except String (List Sub × List Sub) :=
  if h : r.length = used0 then
    if hlt : pos < r.length then
      broadcastIter used0 (pos + 1) (applyOps r (sched.headD []))
        (if r[pos].fails then rem ++ [r[pos]] else rem) sched.tail
    else .ok (r, rem)
  else .error "RuntimeError: Set changed size during iteration"
termination_by used0 - pos
decreasing_by omega

/-- `broadcast_event` run concurrently with the scheduled registry mutations:
iterate the set from position 0 with the current size recorded, then, if the
iteration completed, `discard` the collected `remove_list`; an uncaught
`RuntimeError` from the iteration propagates (and would fail the enclosing
`ingest` call). -/
def broadcast_event_conc (r : List Sub) (sched : List (List RegOp)) :
    Except String (List Sub) :=
  match broadcastIter r.length 0 r [] sched with
  | .ok (r2, rem) => .ok (rem.foldl discard r2)
  | .error e => .error e

/-- With no interleaved mutation the concurrent run agrees with the
sequential `broadcast_event`: the iteration visits every subscriber and
collects exactly the failing ones. -/
theorem broadcastIter_nil_sched (r : List Sub) (pos : Nat) (rem : List Sub)
    (hpos : pos ≤ r.length) :
    broadcastIter r.length pos r rem [] =
      .ok (r, rem ++ (r.drop pos).filter (fun ws => ws.fails)) := by
  have hfuel : r.length - pos + pos = r.length := by omega
  generalize hn : r.length - pos = n at hfuel
  induction n generalizing pos rem with
  | zero =>
    have hlen : pos = r.length := by omega
    rw [broadcastIter.eq_def, dif_pos rfl, dif_neg (by omega)]
    simp [hlen, List.drop_length]
  | succ k ih =>
    have hlt : pos < r.length := by omega
    rw [broadcastIter.eq_def, dif_pos rfl, dif_pos hlt]
    simp only [applyOps, List.foldl_nil, List.headD_nil, List.tail_nil]
    have hdrop : r.drop pos = r[pos] :: r.drop (pos + 1) :=
      List.drop_eq_getElem_cons hlt
    rw [ih (pos + 1) _ (by omega) (by omega) (by omega), hdrop, List.filter_cons]
    by_cases hf : r[pos].fails = true
    · rw [if_pos hf, if_pos hf]
      simp [List.append_assoc]
    · rw [if_neg hf, if_neg hf]

theorem broadcast_event_conc_nil_sched (r : List Sub) :
    broadcast_event_conc r [] = .ok (broadcast_event r) := by
  rw [broadcast_event_conc, broadcastIter_nil_sched r 0 [] (Nat.zero_le _)]
  simp [broadcast_event, broadcastLoop_snd]

/-- C9, the failing scenario.  One subscriber is registered and its send
succeeds; while that send is awaited a second subscriber attaches.  The
iterator's next `next()` sees the size changed and raises `RuntimeError`,
which nothing in `broadcast_event` or `receive_event` catches: the broadcast
fails instead of completing, so mutation and iteration are not synchronized. -/
theorem broadcast_mid_attach_runtime_error :
    broadcast_event_conc [⟨1, false⟩] [[RegOp.attach ⟨2, false⟩]] =
      .error "RuntimeError: Set changed size during iteration" := by
  have h2 : broadcastIter 1 1 [⟨1, false⟩, ⟨2, false⟩] [] [] =
      .error "RuntimeError: Set changed size during iteration" := by
    rw [broadcastIter.eq_def, dif_neg (by decide)]
  rw [broadcast_event_conc, broadcastIter.eq_def,
    dif_pos rfl, dif_pos (by decide)]
  simp only [applyOps, applyOp, List.headD_cons, List.tail_cons, List.foldl_cons,
    List.foldl_nil]
  norm_num [h2]

end CAFirewall
